import Mathlib

/-!
Verification of the `sbg-icons` icon-gallery scripts.

The development shallowly embeds the pure cores of `src/scripts/app.js`,
`src/scripts/icon-loader.js` and the unnamed loader variant
(`src/unnamed/part_000`):

* DOM reads (search box value, current category button) become explicit
  function arguments;
* network fetches become oracle functions `String → Option (Bool × String)`
  (`none` = rejected fetch, `some (ok, body)` = a response with its HTTP
  success flag and body text);
* the three discovery strategies of `smartDiscoverIcons` are abstracted to an
  oracle `Strategy → List IconRecord` giving each strategy's resulting icon
  list, and the pipeline is instrumented with the list of strategies it
  actually invokes;
* JavaScript strings are Lean `String`s; `toLowerCase`/`includes` are modelled
  character-wise below.
-/

/-- One discovered icon, as built by every discovery strategy in
`icon-loader.js` (fields `name`, `category`, `svg`, `path`, `fullUrl`). -/
structure IconRecord where
  name : String
  category : String
  svg : String
  path : String
  fullUrl : String
deriving DecidableEq, Repr

/-- JavaScript `String.prototype.toLowerCase`, modelled character-wise
(adequate for the ASCII names and categories this repository uses). -/
def jsToLower (s : String) : String := ⟨s.data.map Char.toLower⟩

/-- Helper for `jsIncludes`: does the first list occur at the head of the
second? -/
def listIsPre : List Char → List Char → Bool
  | [], _ => true
  | _ :: _, [] => false
  | a :: as, b :: bs => a == b && listIsPre as bs

/-- Helper for `jsIncludes`: does `needle` occur as a contiguous run inside
the second list? -/
def listIncl (needle : List Char) : List Char → Bool
  | [] => listIsPre needle []
  | c :: hs => listIsPre needle (c :: hs) || listIncl needle hs

/-- JavaScript `hay.includes(needle)`: substring test. -/
def jsIncludes (hay needle : String) : Bool :=
  listIncl needle.data hay.data

/-- `filterIcons` from `src/scripts/app.js` (lines 67-79), with the DOM reads
made explicit: `searchInput` is the raw text of the search box and
`currentCategory` the active category button's value.  The body lowercases
the search text once, then keeps the icons whose lowercased name or
lowercased category contains it and whose category matches the selection
(`"all"` matches everything). -/
def filterIcons (iconsData : List IconRecord) (searchInput : String)
    (currentCategory : String) : List IconRecord :=
  let searchTerm := jsToLower searchInput
  iconsData.filter (fun icon =>
    (jsIncludes (jsToLower icon.name) searchTerm
      || jsIncludes (jsToLower icon.category) searchTerm)
    && (currentCategory == "all" || icon.category == currentCategory))

/-- Modelled from the spec: the filter predicate exactly as claim C1 words
it — "(selected category is 'all' or r.category equals the selected
category) and (the lowercased r.name or the lowercased r.category contains
the lowercased search text as a substring)".  Used only to compare with the
source-derived `filterIcons`. -/
def specFilterPred (searchText selectedCategory : String)
    (r : IconRecord) : Bool :=
  (selectedCategory == "all" || r.category == selectedCategory)
  && (jsIncludes (jsToLower r.name) (jsToLower searchText)
      || jsIncludes (jsToLower r.category) (jsToLower searchText))

/-- The record named `A` of the spec's example scenario (claim C5). -/
def recA : IconRecord :=
  ⟨"A", "blue-default", "<svg>A</svg>", "icons/blue-default/A.svg",
    "base/icons/blue-default/A.svg"⟩

/-- The record named `B` of the spec's example scenario (claim C5). -/
def recB : IconRecord :=
  ⟨"B", "grey", "<svg>B</svg>", "icons/grey/B.svg", "base/icons/grey/B.svg"⟩

/-- The record named `C` of the spec's example scenario (claim C5). -/
def recC : IconRecord :=
  ⟨"C", "blue-default", "<svg>C</svg>", "icons/blue-default/C.svg",
    "base/icons/blue-default/C.svg"⟩

/-- The three discovery strategies of `smartDiscoverIcons`
(`src/scripts/icon-loader.js`, lines 207-235), in source order. -/
inductive Strategy
  | indexFile
  | githubAPI
  | dirListing
deriving DecidableEq, Repr

/-- `smartDiscoverIcons` from `src/scripts/icon-loader.js` (lines 207-235),
instrumented.  `f` is the strategy oracle: `f s` is the icon list strategy
`s` would produce (each strategy catches its own errors and returns `[]`,
so its outcome is always a plain list).  `skipIndex` is `window._skipIndex`.
The result pairs the returned icon list with the strategies invoked, in
invocation order, mirroring the code's early returns: a later strategy is
only consulted when every earlier one produced an empty list. -/
def smartDiscoverIconsTr (skipIndex : Bool)
    (f : Strategy → List IconRecord) : List IconRecord × List Strategy :=
  let afterIndex : List Strategy → List IconRecord × List Strategy :=
    fun tried =>
      let icons := f Strategy.githubAPI
      if icons.isEmpty then
        let tried₂ := tried ++ [Strategy.githubAPI]
        let icons₂ := f Strategy.dirListing
        if icons₂.isEmpty then ([], tried₂ ++ [Strategy.dirListing])
        else (icons₂, tried₂ ++ [Strategy.dirListing])
      else (icons, tried ++ [Strategy.githubAPI])
  if skipIndex then afterIndex []
  else
    let icons := f Strategy.indexFile
    if icons.isEmpty then afterIndex [Strategy.indexFile]
    else (icons, [Strategy.indexFile])

/-- The icon list `smartDiscoverIcons` returns (first projection of the
instrumented pipeline). -/
def smartDiscoverIcons (skipIndex : Bool)
    (f : Strategy → List IconRecord) : List IconRecord :=
  (smartDiscoverIconsTr skipIndex f).1

/-- The observable outcome `initializeIconLibrary` leaves in the icons grid:
the "no icons" panel, the success path, or the catch-all error panel
(`src/scripts/icon-loader.js`, lines 259-369). -/
inductive GridState
  | noIcons
  | success (icons : List IconRecord)
  | errorPanel (msg : String)
deriving DecidableEq, Repr

/-- `initializeIconLibrary` from `src/scripts/icon-loader.js` (lines
259-369), reduced to its observable outcome: run `smartDiscoverIcons`; when
it yields no icons render the no-icons panel, otherwise store the icons and
render them.  The function is total, so the `catch` branch
(`GridState.errorPanel`) is never the result in this model. -/
def initializeIconLibrary (skipIndex : Bool)
    (f : Strategy → List IconRecord) : GridState :=
  let discoveredIcons := smartDiscoverIcons skipIndex f
  if discoveredIcons.isEmpty then GridState.noIcons
  else GridState.success discoveredIcons

/-- `loadSVG` from `src/scripts/icon-loader.js` (lines 28-36): fetch the
url; a rejected fetch or a non-ok status yields `none` (the code catches and
returns `null`), otherwise the response body. -/
def loadSVG (fetch : String → Option (Bool × String))
    (url : String) : Option String :=
  match fetch url with
  | none => none
  | some (ok, text) => if ok then some text else none

/-- One entry of a parsed `icons-index.json` array: the three fields the
index-file strategy reads, each possibly absent. -/
structure IndexItem where
  name : Option String
  category : Option String
  path : Option String
deriving DecidableEq, Repr

/-- JavaScript truthiness of a possibly-absent string field: absent and the
empty string are falsy. -/
def truthy : Option String → Bool
  | none => false
  | some s => s != ""

/-- The per-entry loop of `tryIndexFile` from `src/scripts/icon-loader.js`
(lines 62-93), instrumented.  The fetch and JSON-parse of
`icons-index.json` itself are abstracted as the `indexData` argument.  Each
entry with truthy `name`, `category` and `path` has its file fetched via
`loadSVG`; the code's `if (svgContent)` is JS truthiness, so only a fetch
yielding a non-empty body contributes a record — a rejected fetch, a
non-ok status or an empty body leave only a log entry (the code's
`failedIcons`).  Entries without the three fields (the metadata record)
are skipped without a fetch.  The second component lists the urls fetched,
in order. -/
def tryIndexFile (fetch : String → Option (Bool × String)) (baseUrl : String) :
    List IndexItem → List IconRecord × List String
  | [] => ([], [])
  | item :: rest =>
    let tail := tryIndexFile fetch baseUrl rest
    if truthy item.name && truthy item.category && truthy item.path then
      let n := item.name.getD ""
      let c := item.category.getD ""
      let p := item.path.getD ""
      let iconUrl := baseUrl ++ p
      let svgContent := loadSVG fetch iconUrl
      if truthy svgContent then
        (⟨n, c, svgContent.getD "", p, iconUrl⟩ :: tail.1, iconUrl :: tail.2)
      else (tail.1, iconUrl :: tail.2)
    else tail

/-- `generateIndexFile` from `src/scripts/icon-loader.js` (lines 238-256),
at the data level (the `JSON.stringify` step is identity on this
representation): a metadata record carrying none of the `name`, `category`,
`path` fields, followed by one `{name, category, path}` entry per icon. -/
def generateIndexFile (discoveredIcons : List IconRecord) : List IndexItem :=
  ⟨none, none, none⟩ ::
    discoveredIcons.map (fun icon =>
      ⟨some icon.name, some icon.category, some icon.path⟩)

/-- The `(name, category, path)` projection of a record — the data the
index file preserves (`svg` is re-fetched, never embedded). -/
def nameCatPath (r : IconRecord) : String × String × String :=
  (r.name, r.category, r.path)

/-- The copy modal's DOM state: `displayBlock` is whether
`#copyModal.style.display` is `block`, the four strings are the text
contents of `#modalTitle`, `#svgCode`, `#filePath` and `#imgTag`. -/
structure ModalState where
  displayBlock : Bool
  modalTitle : String
  svgCode : String
  filePath : String
  imgTag : String
deriving DecidableEq, Repr

/-- `openCopyModal` from `src/scripts/app.js` (lines 111-121): look the
name up in `iconsData`; on a miss return with the modal state untouched,
on a hit populate the display fields and show the modal. -/
def openCopyModal (iconsData : List IconRecord) (iconName : String)
    (st : ModalState) : ModalState :=
  match iconsData.find? (fun i => i.name == iconName) with
  | none => st
  | some icon =>
    { displayBlock := true
      modalTitle := "Copy \"" ++ icon.name ++ "\" Icon"
      svgCode := icon.svg
      filePath := icon.path
      imgTag := "<img src=\"" ++ icon.path ++ "\" alt=\"" ++ icon.name ++ "\" />" }

/-- The single-quote character, for the quote-insensitive href pattern of
`parseDirectoryListing`. -/
def singleQuote : Char := Char.ofNat 39

/-- Captures of the double-quoted href patterns of `parseDirectoryListing`
(`src/unnamed/part_000`, patterns 1 and 2 — the Apache and Nginx forms both
capture the text between `href="` and the next `"`). -/
def hrefDoubleQuoted (html : String) : List String :=
  ((html.splitOn "href=\"").drop 1).map (fun seg => (seg.splitOn "\"").headD "")

/-- Captures of the single-quote side of pattern 3 of
`parseDirectoryListing` (`href=["']([^"']*\.svg)["']`): after `href='`,
the run of characters containing neither quote kind. -/
def hrefSingleQuoted (html : String) : List String :=
  ((html.splitOn ("href=" ++ singleQuote.toString)).drop 1).map (fun seg =>
    ⟨seg.data.takeWhile (fun c => c != '"' && c != singleQuote)⟩)

/-- Captures of pattern 4 of `parseDirectoryListing`
(`<a[^>]*>([^<]*\.svg)</a>`): the text content directly preceding each
closing anchor tag. -/
def anchorTextCaptured (html : String) : List String :=
  ((html.splitOn "</a>").dropLast).map (fun seg =>
    (seg.splitOn ">").getLastD "")

/-- `parseDirectoryListing` from `src/unnamed/part_000` (lines 41-68): run
the regex patterns over the html (each pattern only matches captures ending
in `.svg`, case-insensitively), keep the truthy captures that end in
`.svg` and contain no `/`, then de-duplicate and sort. -/
def parseDirectoryListing (html : String) : List String :=
  let captures :=
    hrefDoubleQuoted html ++ hrefSingleQuoted html ++ anchorTextCaptured html
  let regexHits := captures.filter (fun c => (jsToLower c).endsWith ".svg")
  let svgFiles := regexHits.filter (fun f =>
    f != "" && f.endsWith ".svg" && !(f.contains '/'))
  List.insertionSort (fun a b => a ≤ b) svgFiles.dedup

/-- The strategy oracle on which every strategy yields no icons. -/
def emptyOracle : Strategy → List IconRecord := fun _ => []

/-- A fetch oracle on which exactly one url (`base/icons/grey/bad.svg`) is
missing; every other fetch succeeds. -/
def fetchBadMissing : String → Option (Bool × String) :=
  fun u => if u = "base/icons/grey/bad.svg" then none else some (true, "<svg/>")

/-- A fetch oracle on which every fetch succeeds. -/
def fetchAlwaysOk : String → Option (Bool × String) := fun _ => some (true, "<svg/>")

/-- A well-formed index entry whose file exists on `fetchBadMissing`. -/
def itemGood : IndexItem := ⟨some "a", some "grey", some "icons/grey/a.svg"⟩

/-- A well-formed index entry whose file is the one missing on
`fetchBadMissing`. -/
def itemBad : IndexItem := ⟨some "bad", some "grey", some "icons/grey/bad.svg"⟩

/-- A second well-formed index entry, listed after `itemBad`, whose file
exists on `fetchBadMissing`. -/
def itemGood₂ : IndexItem := ⟨some "c", some "grey", some "icons/grey/c.svg"⟩

/-- A collection whose single record has an empty `name`: JavaScript
truthiness makes the index-file strategy drop its generated index entry. -/
def colBad : List IconRecord :=
  [⟨"", "grey", "<svg/>", "icons/grey/.svg", "base/icons/grey/.svg"⟩]

/-- The copy modal in its closed state with empty display fields. -/
def closedModal : ModalState := ⟨false, "", "", "", ""⟩

/-- The empty needle is a substring of every string (JS
`s.includes("") === true`). -/
lemma listIncl_nil (h : List Char) : listIncl [] h = true := by
  cases h <;> rfl

/-- The per-entry loop of the index-file strategy treats each entry
independently: both the record list and the fetch trace distribute over
list append. -/
lemma tryIndexFile_append (fetch : String → Option (Bool × String)) (b : String)
    (l₁ l₂ : List IndexItem) :
    tryIndexFile fetch b (l₁ ++ l₂) =
      ((tryIndexFile fetch b l₁).1 ++ (tryIndexFile fetch b l₂).1,
       (tryIndexFile fetch b l₁).2 ++ (tryIndexFile fetch b l₂).2) := by
  induction l₁ with
  | nil => simp [tryIndexFile]
  | cons item rest ih =>
    simp only [List.cons_append, tryIndexFile, ih]
    by_cases hcond : (truthy item.name && truthy item.category && truthy item.path) = true
    · simp only [hcond, if_true]
      by_cases hsvg : truthy (loadSVG fetch (b ++ item.path.getD "")) = true <;>
        simp [hsvg, ih]
    · simp [hcond, ih]

/-- Claim C1: for every icon collection, search text and selected category,
`filterIcons` returns exactly the records satisfying the claimed predicate —
the result is literally the filter of the collection by `specFilterPred`
(the predicate as the claim words it), and a record is in the result iff it
is in the collection and satisfies that predicate, so no other record is
included. -/
theorem filterIcons_exact (d : List IconRecord) (q cat : String) :
    filterIcons d q cat = d.filter (specFilterPred q cat) ∧
    ∀ r : IconRecord,
      r ∈ filterIcons d q cat ↔ r ∈ d ∧ specFilterPred q cat r = true := by
  have h : filterIcons d q cat = d.filter (specFilterPred q cat) := by
    unfold filterIcons specFilterPred
    exact List.filter_congr (fun x _ => Bool.and_comm _ _)
  exact ⟨h, fun r => by rw [h, List.mem_filter]⟩

/-- Claim C2: the discovery pipeline tries index file, then hosting API,
then directory listing, returns the result of the first strategy yielding a
non-empty list, and the invocation trace stops at that strategy — later
strategies are not invoked. -/
theorem smartDiscoverIcons_first_nonempty (f : Strategy → List IconRecord) :
    smartDiscoverIconsTr false f =
      (if f Strategy.indexFile ≠ [] then
        (f Strategy.indexFile, [Strategy.indexFile])
       else if f Strategy.githubAPI ≠ [] then
        (f Strategy.githubAPI, [Strategy.indexFile, Strategy.githubAPI])
       else
        (f Strategy.dirListing,
          [Strategy.indexFile, Strategy.githubAPI, Strategy.dirListing])) := by
  unfold smartDiscoverIconsTr
  by_cases h1 : f Strategy.indexFile = [] <;>
    by_cases h2 : f Strategy.githubAPI = [] <;>
    by_cases h3 : f Strategy.dirListing = [] <;>
    simp [h1, h2, h3, List.isEmpty_iff]

/-- Claim C3: when every strategy returns an empty list, the pipeline
returns an empty result (after invoking all three strategies) and
`initializeIconLibrary` renders the no-icons state — in particular not the
error panel, i.e. no exception escapes the pipeline or the caller. -/
theorem smartDiscoverIcons_all_empty_noIcons (f : Strategy → List IconRecord)
    (h : ∀ s, f s = []) :
    smartDiscoverIcons false f = [] ∧
    smartDiscoverIconsTr false f =
      ([], [Strategy.indexFile, Strategy.githubAPI, Strategy.dirListing]) ∧
    initializeIconLibrary false f = GridState.noIcons ∧
    ∀ msg, initializeIconLibrary false f ≠ GridState.errorPanel msg := by
  simp [smartDiscoverIcons, smartDiscoverIconsTr, initializeIconLibrary, h]

/-- Witness for claim C3 at the concrete all-empty oracle. -/
theorem smartDiscoverIcons_all_empty_noIcons_witness :
    (∀ s, emptyOracle s = []) ∧
    (smartDiscoverIcons false emptyOracle = [] ∧
     smartDiscoverIconsTr false emptyOracle =
       ([], [Strategy.indexFile, Strategy.githubAPI, Strategy.dirListing]) ∧
     initializeIconLibrary false emptyOracle = GridState.noIcons ∧
     ∀ msg, initializeIconLibrary false emptyOracle ≠ GridState.errorPanel msg) :=
  ⟨fun _ => rfl,
   smartDiscoverIcons_all_empty_noIcons emptyOracle (fun _ => rfl)⟩

/-- Claim C4: inside the index-file strategy, an entry whose per-file fetch
fails contributes no record but its url is still fetched, and the records
and fetches of every other entry — before and after it — are exactly those
the strategy produces without the failing entry; the strategy neither
aborts nor raises. -/
theorem tryIndexFile_failed_fetch_drops_only_that_file
    (fetch : String → Option (Bool × String)) (b : String)
    (l₁ l₂ : List IndexItem) (item : IndexItem) (p : String)
    (hn : truthy item.name = true) (hc : truthy item.category = true)
    (hp : item.path = some p) (hpne : p ≠ "")
    (hf : loadSVG fetch (b ++ p) = none) :
    tryIndexFile fetch b (l₁ ++ item :: l₂) =
      ((tryIndexFile fetch b l₁).1 ++ (tryIndexFile fetch b l₂).1,
       (tryIndexFile fetch b l₁).2 ++ (b ++ p) :: (tryIndexFile fetch b l₂).2) := by
  rw [tryIndexFile_append fetch b l₁ (item :: l₂)]
  have ht : truthy (some p) = true := by simp [truthy, hpne]
  have hft : truthy (loadSVG fetch (b ++ p)) = false := by rw [hf]; rfl
  simp [tryIndexFile, hn, hc, hp, ht, hft]

/-- Witness for claim C4: with `itemBad` between `itemGood` and `itemGood₂`
and its file missing, only `itemBad` is dropped. -/
theorem tryIndexFile_failed_fetch_drops_only_that_file_witness :
    (truthy itemBad.name = true ∧ truthy itemBad.category = true ∧
     itemBad.path = some "icons/grey/bad.svg" ∧
     ("icons/grey/bad.svg" : String) ≠ "" ∧
     loadSVG fetchBadMissing ("base/" ++ "icons/grey/bad.svg") = none) ∧
    tryIndexFile fetchBadMissing "base/" ([itemGood] ++ itemBad :: [itemGood₂]) =
      ((tryIndexFile fetchBadMissing "base/" [itemGood]).1
         ++ (tryIndexFile fetchBadMissing "base/" [itemGood₂]).1,
       (tryIndexFile fetchBadMissing "base/" [itemGood]).2
         ++ ("base/" ++ "icons/grey/bad.svg")
           :: (tryIndexFile fetchBadMissing "base/" [itemGood₂]).2) :=
  ⟨⟨by decide, by decide, rfl, by decide, by decide⟩,
   tryIndexFile_failed_fetch_drops_only_that_file fetchBadMissing "base/"
     [itemGood] [itemGood₂] itemBad "icons/grey/bad.svg"
     (by decide) (by decide) rfl (by decide) (by decide)⟩

/-- Claim C5, counterexample: on the spec's example scenario the filter does
not yield exactly the record `A` — the record `C` also matches, because its
category `blue-default` contains the letter `a`. -/
theorem filterIcons_example_scenario_claim_false :
    ¬ (filterIcons [recA, recB, recC] "a" "blue-default" = [recA]) := by
  decide

/-- Claim C5, amended: on the collection `{A, blue-default}`, `{B, grey}`,
`{C, blue-default}` with selected category `blue-default` and search text
`a`, the filter yields exactly the records `A` and `C`, in that order (`C`
matches because the search also runs over the category text). -/
theorem filterIcons_example_scenario_amended :
    filterIcons [recA, recB, recC] "a" "blue-default" = [recA, recC] := by
  decide

/-- Claim C6, counterexample: the round-trip is not the identity on every
collection — a record whose `name` is the empty string is emitted into the
index but dropped on parsing, since the strategy's JavaScript truthiness
test rejects empty-string fields. -/
theorem generateIndexFile_roundtrip_claim_false :
    ¬ (((tryIndexFile fetchAlwaysOk "base/" (generateIndexFile colBad)).1).map
          nameCatPath
        = colBad.map nameCatPath) := by
  decide

/-- Claim C6, amended: for every collection whose records have non-empty
`name`, `category` and `path`, generating an index and parsing it the way
the index-file strategy does (with every per-file fetch succeeding with a
non-empty body, the JS-truthy `if (svgContent)` test of the code)
reconstructs, in order, records with `name`, `category` and `path`
identical to the original collection's; the metadata record, lacking all
three fields, is not reconstructed as an icon. -/
theorem generateIndexFile_roundtrip_nonempty_fields
    (fetch : String → Option (Bool × String)) (b : String)
    (col : List IconRecord)
    (hcol : ∀ r ∈ col, r.name ≠ "" ∧ r.category ≠ "" ∧ r.path ≠ "")
    (hfetch : ∀ u, truthy (loadSVG fetch u) = true) :
    ((tryIndexFile fetch b (generateIndexFile col)).1).map nameCatPath
      = col.map nameCatPath := by
  unfold generateIndexFile
  rw [show tryIndexFile fetch b
      (⟨none, none, none⟩ ::
        col.map (fun icon => ⟨some icon.name, some icon.category, some icon.path⟩))
      = tryIndexFile fetch b
          (col.map (fun icon => ⟨some icon.name, some icon.category, some icon.path⟩))
    from by simp [tryIndexFile, truthy]]
  induction col with
  | nil => simp [tryIndexFile]
  | cons r rest ih =>
    obtain ⟨hn, hc, hp⟩ := hcol r (by simp)
    simp only [List.map_cons, tryIndexFile]
    have ht : (truthy (some r.name) && truthy (some r.category)
        && truthy (some r.path)) = true := by
      simp [truthy, hn, hc, hp]
    simp only [ht, if_true, Option.getD_some, hfetch, List.map_cons]
    simp [nameCatPath, ih (fun x hx => hcol x (by simp [hx]))]

/-- Witness for claim C6 at the one-record collection `[recA]` with the
always-succeeding non-empty-body fetch. -/
theorem generateIndexFile_roundtrip_nonempty_fields_witness :
    (∀ r ∈ [recA], r.name ≠ "" ∧ r.category ≠ "" ∧ r.path ≠ "") ∧
    (∀ u, truthy (loadSVG fetchAlwaysOk u) = true) ∧
    ((tryIndexFile fetchAlwaysOk "base/" (generateIndexFile [recA])).1).map
        nameCatPath
      = [recA].map nameCatPath :=
  ⟨by decide, fun _ => rfl,
   generateIndexFile_roundtrip_nonempty_fields fetchAlwaysOk "base/" [recA]
     (by decide) (fun _ => rfl)⟩

/-- Claim C7: filtering with the empty search string and selected category
`all` returns the collection unchanged. -/
theorem filterIcons_empty_search_all_identity (d : List IconRecord) :
    filterIcons d "" "all" = d := by
  unfold filterIcons
  apply List.filter_eq_self.mpr
  intro a _
  have h0 : (jsToLower "").data = [] := rfl
  simp [jsIncludes, h0, listIncl_nil]

/-- Claim C8: for every collection and filter state the filtered view is an
order-preserving subsequence (`List.Sublist`) of the collection; in
particular every record of the view occurs in the collection, and the
sublist relation preserves relative order. -/
theorem filterIcons_sublist_of_collection (d : List IconRecord)
    (q cat : String) :
    List.Sublist (filterIcons d q cat) d ∧
    ∀ r ∈ filterIcons d q cat, r ∈ d := by
  have h : List.Sublist (filterIcons d q cat) d := by
    unfold filterIcons
    exact List.filter_sublist d
  exact ⟨h, fun r hr => h.subset hr⟩

/-- Claim C9: on every input html, `parseDirectoryListing` returns a
duplicate-free list, sorted in ascending order, whose every element ends in
`.svg` and contains no `/`. -/
theorem parseDirectoryListing_wellFormed (html : String) :
    (parseDirectoryListing html).Nodup ∧
    List.Sorted (fun a b : String => a ≤ b) (parseDirectoryListing html) ∧
    ∀ f ∈ parseDirectoryListing html,
      f.endsWith ".svg" = true ∧ f.contains '/' = false := by
  unfold parseDirectoryListing
  refine ⟨?_, ?_, ?_⟩
  · exact ((List.perm_insertionSort _ _).nodup_iff).mpr (List.nodup_dedup _)
  · exact List.sorted_insertionSort _ _
  · intro f hf
    have hf₁ : f ∈ (((hrefDoubleQuoted html ++ hrefSingleQuoted html
        ++ anchorTextCaptured html).filter
          (fun c => (jsToLower c).endsWith ".svg")).filter (fun f =>
        f != "" && f.endsWith ".svg" && !(f.contains '/'))) := by
      have hm :=
        ((List.perm_insertionSort (fun a b : String => a ≤ b) _).mem_iff).mp hf
      exact List.mem_dedup.mp hm
    have hp := List.of_mem_filter hf₁
    simp only [Bool.and_eq_true, Bool.not_eq_true'] at hp
    exact ⟨hp.1.2, hp.2⟩

/-- Claim C10: opening the copy modal with a name matching no record is a
no-op — the modal state, all display fields included, is returned
untouched, and in particular a closed modal stays closed. -/
theorem openCopyModal_unknown_name_noop (d : List IconRecord) (nm : String)
    (st : ModalState) (h : ∀ i ∈ d, i.name ≠ nm) :
    openCopyModal d nm st = st ∧
    (st.displayBlock = false → (openCopyModal d nm st).displayBlock = false) := by
  have hfind : d.find? (fun i => i.name == nm) = none :=
    List.find?_eq_none.mpr (fun i hi => by simp [h i hi])
  have he : openCopyModal d nm st = st := by simp [openCopyModal, hfind]
  exact ⟨he, fun hd => by rw [he]; exact hd⟩

/-- Witness for claim C10: the name `missing` matches none of the three
demo records, so the closed modal is left closed and unchanged. -/
theorem openCopyModal_unknown_name_noop_witness :
    (∀ i ∈ [recA, recB, recC], i.name ≠ "missing") ∧
    (openCopyModal [recA, recB, recC] "missing" closedModal = closedModal ∧
     (closedModal.displayBlock = false →
       (openCopyModal [recA, recB, recC] "missing" closedModal).displayBlock
         = false)) :=
  ⟨by decide,
   openCopyModal_unknown_name_noop [recA, recB, recC] "missing" closedModal
     (by decide)⟩
